import Mathlib

/-!
Verification of the game-boilerplate simulation core (input translation,
player movement, camera rig, physics synchronization) against its
natural-language specification.  The definitions below are a shallow
embedding of the TypeScript sources:

  * `src/systems/PlayerSystem.ts`  — `PlayerSystem.update`, `isGrounded`,
    and the `PhysicsSystem` rotation-write helpers appended in that file;
  * `src/systems/CameraSystem.ts`  — `updateRotation`, target-position
    computation and the per-frame `update`;
  * `src/systems/InputSystem.ts`   — `onKeyDown` / `onKeyUp`;
  * `src/state/InputState.ts`      — the zustand store transitions;
  * `src/config/inputMappings.ts`  — `keyActionMap`.

Machine floats are modelled by real numbers; THREE.js vector/quaternion
helpers (`normalize`, `addScaledVector`, `multiplyScalar`,
`setFromAxisAngle`, `multiply`, `applyQuaternion`) are translated from the
THREE.js sources the repository calls into.  Rapier's `applyImpulse` adds
`impulse * invMass` to the linear velocity; `setLinvel` overwrites it.
Per-frame mutation of the player body is modelled by a result record that
also keeps the trace of `applyImpulse` and `setLinvel` calls the update
performed, so that "applies no impulse" style properties are statable.
-/

noncomputable section

namespace Game

/-- THREE.Vector3: a 3-component real vector. -/
structure Vec3 where
  x : ℝ
  y : ℝ
  z : ℝ

/-- THREE.Vector2: a 2-component real vector. -/
structure Vec2 where
  x : ℝ
  y : ℝ

/-- THREE.Quaternion. -/
structure Quat where
  x : ℝ
  y : ℝ
  z : ℝ
  w : ℝ

/-- THREE.Vector3.lengthSq: `x*x + y*y + z*z`. -/
def Vec3.lengthSq (v : Vec3) : ℝ := v.x * v.x + v.y * v.y + v.z * v.z

/-- THREE.Vector3.length. -/
def Vec3.length (v : Vec3) : ℝ := Real.sqrt v.lengthSq

/-- THREE.Vector3.normalize: divide by the length (division by zero in ℝ
yields 0, matching THREE's `divideScalar(length || 1)` on the zero vector). -/
def Vec3.normalize (v : Vec3) : Vec3 :=
  ⟨v.x / v.length, v.y / v.length, v.z / v.length⟩

/-- THREE.Vector3.multiplyScalar. -/
def Vec3.multiplyScalar (v : Vec3) (s : ℝ) : Vec3 := ⟨v.x * s, v.y * s, v.z * s⟩

/-- THREE.Vector3.addScaledVector: `v + w * s`. -/
def Vec3.addScaledVector (v w : Vec3) (s : ℝ) : Vec3 :=
  ⟨v.x + w.x * s, v.y + w.y * s, v.z + w.z * s⟩

/-- THREE.Vector3.add. -/
def Vec3.add (v w : Vec3) : Vec3 := ⟨v.x + w.x, v.y + w.y, v.z + w.z⟩

/-- THREE.Vector3.dot. -/
def Vec3.dot (v w : Vec3) : ℝ := v.x * w.x + v.y * w.y + v.z * w.z

/-- THREE.Vector2.lengthSq. -/
def Vec2.lengthSq (v : Vec2) : ℝ := v.x * v.x + v.y * v.y

/-- THREE.Vector2.length. -/
def Vec2.length (v : Vec2) : ℝ := Real.sqrt v.lengthSq

/-- THREE.Vector2.normalize. -/
def Vec2.normalize (v : Vec2) : Vec2 := ⟨v.x / v.length, v.y / v.length⟩

/-- THREE.Vector2.multiplyScalar. -/
def Vec2.multiplyScalar (v : Vec2) (s : ℝ) : Vec2 := ⟨v.x * s, v.y * s⟩

/-- THREE.Quaternion.setFromAxisAngle (axis assumed normalized):
half-angle construction. -/
def Quat.setFromAxisAngle (axis : Vec3) (angle : ℝ) : Quat :=
  ⟨axis.x * Real.sin (angle / 2), axis.y * Real.sin (angle / 2),
   axis.z * Real.sin (angle / 2), Real.cos (angle / 2)⟩

/-- THREE.Quaternion.multiplyQuaternions: `a * b` in THREE's component
formula (so `p.multiply q` is `Quat.mul p q`). -/
def Quat.mul (a b : Quat) : Quat :=
  ⟨a.x * b.w + a.w * b.x + a.y * b.z - a.z * b.y,
   a.y * b.w + a.w * b.y + a.z * b.x - a.x * b.z,
   a.z * b.w + a.w * b.z + a.x * b.y - a.y * b.x,
   a.w * b.w - a.x * b.x - a.y * b.y - a.z * b.z⟩

/-- THREE.Vector3.applyQuaternion. -/
def Vec3.applyQuaternion (v : Vec3) (q : Quat) : Vec3 :=
  let tx := 2 * (q.y * v.z - q.z * v.y)
  let ty := 2 * (q.z * v.x - q.x * v.z)
  let tz := 2 * (q.x * v.y - q.y * v.x)
  ⟨v.x + q.w * tx + q.y * tz - q.z * ty,
   v.y + q.w * ty + q.z * tx - q.x * tz,
   v.z + q.w * tz + q.x * ty - q.y * tx⟩

/-! ## Input actions and the input store (`src/enums/InputAction.ts`,
`src/state/InputState.ts`) -/

/-- The abstract input actions of `InputAction`. -/
inductive InputAction where
  | forward
  | backward
  | left
  | right
  | jump
  | run
  | action1
deriving DecidableEq

/-- `Record<InputAction, boolean>`: one boolean per action. -/
structure Actions where
  forward : Bool
  backward : Bool
  left : Bool
  right : Bool
  jump : Bool
  run : Bool
  action1 : Bool
deriving DecidableEq

/-- Read one action flag. -/
def Actions.get (a : Actions) : InputAction → Bool
  | .forward => a.forward
  | .backward => a.backward
  | .left => a.left
  | .right => a.right
  | .jump => a.jump
  | .run => a.run
  | .action1 => a.action1

/-- Write one action flag (the store's `actions: {...state.actions, [action]: value}`). -/
def Actions.set (a : Actions) : InputAction → Bool → Actions
  | .forward, v => { a with forward := v }
  | .backward, v => { a with backward := v }
  | .left, v => { a with left := v }
  | .right, v => { a with right := v }
  | .jump, v => { a with jump := v }
  | .run, v => { a with run := v }
  | .action1, v => { a with action1 := v }

/-- The zustand input store state (`InputState`): action flags, accumulated
mouse delta, pointer-lock flag. -/
structure InputStoreState where
  actions : Actions
  mouseDeltaX : ℝ
  mouseDeltaY : ℝ
  isPointerLocked : Bool

/-- `setAction` of the store. -/
def setAction (action : InputAction) (value : Bool) (s : InputStoreState) : InputStoreState :=
  { s with actions := s.actions.set action value }

/-- `setMouseDelta` of the store: accumulates. -/
def setMouseDelta (deltaX deltaY : ℝ) (s : InputStoreState) : InputStoreState :=
  { s with mouseDeltaX := s.mouseDeltaX + deltaX, mouseDeltaY := s.mouseDeltaY + deltaY }

/-- `resetMouseDelta` of the store. -/
def resetMouseDelta (s : InputStoreState) : InputStoreState :=
  { s with mouseDeltaX := 0, mouseDeltaY := 0 }

/-- `setPointerLocked` of the store: no-op unless the flag changes; on a
transition to unlocked, force the four directional flags to false. -/
def setPointerLocked (isLocked : Bool) (s : InputStoreState) : InputStoreState :=
  if s.isPointerLocked ≠ isLocked then
    let s := { s with isPointerLocked := isLocked }
    if !isLocked then
      { s with actions :=
        { s.actions with
          forward := false
          backward := false
          left := false
          right := false } }
    else s
  else s

/-! ## Key mapping and keyboard handlers (`src/config/inputMappings.ts`,
`src/systems/InputSystem.ts`) -/

/-- `keyActionMap`: physical event codes to abstract actions; codes absent
from the table map to `none`. -/
def keyActionMap : String → Option InputAction
  | "KeyW" => some .forward
  | "ArrowUp" => some .forward
  | "KeyS" => some .backward
  | "ArrowDown" => some .backward
  | "KeyA" => some .left
  | "ArrowLeft" => some .left
  | "KeyD" => some .right
  | "ArrowRight" => some .right
  | "Space" => some .jump
  | "ShiftLeft" => some .run
  | "ShiftRight" => some .run
  | "Mouse1" => some .action1
  | _ => none

/-- `InputSystem.onKeyDown`: ignore OS auto-repeat events, look the code up
in `keyActionMap`, set the mapped action true (the `preventDefault` branch
touches only the browser event, not the store). -/
def InputSystem.onKeyDown (isRepeat : Bool) (code : String) (s : InputStoreState) : InputStoreState :=
  if isRepeat then s
  else
    match keyActionMap code with
    | some action => setAction action true s
    | none => s

/-- `InputSystem.onKeyUp`: look the code up, set the mapped action false. -/
def InputSystem.onKeyUp (code : String) (s : InputStoreState) : InputStoreState :=
  match keyActionMap code with
  | some action => setAction action false s
  | none => s

/-! ## Player movement (`src/systems/PlayerSystem.ts`) -/

/-- `PLAYER_HEIGHT` constant of `PlayerSystem`. -/
def PLAYER_HEIGHT : ℝ := 1.8

/-- `GROUND_THRESHOLD` constant of `PlayerSystem`. -/
def GROUND_THRESHOLD : ℝ := 0.15

/-- `LOW_VELOCITY_THRESHOLD` constant of `PlayerSystem`. -/
def LOW_VELOCITY_THRESHOLD : ℝ := 0.2

/-- A Rapier rigid body as the movement controller sees it: translation,
linear velocity, and the inverse mass that `applyImpulse` scales by. -/
structure Body where
  pos : Vec3
  vel : Vec3
  invMass : ℝ

/-- Rapier `applyImpulse`: adds `impulse * invMass` to the linear velocity. -/
def Body.applyImpulse (b : Body) (impulse : Vec3) : Body :=
  { b with vel := ⟨b.vel.x + impulse.x * b.invMass,
                   b.vel.y + impulse.y * b.invMass,
                   b.vel.z + impulse.z * b.invMass⟩ }

/-- Rapier `setLinvel`: overwrites the linear velocity. -/
def Body.setLinvel (b : Body) (v : Vec3) : Body := { b with vel := v }

/-- `PlayerSystem.isGrounded`: feet position against a ground plane at
height zero, and near-zero vertical speed. -/
def isGrounded (b : Body) : Prop :=
  max 0 (b.pos.y - PLAYER_HEIGHT / 2) < GROUND_THRESHOLD ∧
  |b.vel.y| < LOW_VELOCITY_THRESHOLD

instance (b : Body) : Decidable (isGrounded b) := by
  unfold isGrounded; infer_instance

/-- The tunable scalars of `PlayerSystem` together with the camera
direction vectors installed by `setCameraVectors`. -/
structure PlayerConfig where
  moveSpeed : ℝ
  jumpForce : ℝ
  maxSpeed : ℝ
  damping : ℝ
  cameraForward : Vec3
  cameraRight : Vec3

/-- The `PlayerSystem` defaults (`moveSpeed = 5`, `jumpForce = 7`,
`maxSpeed = 10`, `damping = 0.90`, initial camera vectors). -/
def defaultConfig : PlayerConfig :=
  { moveSpeed := 5, jumpForce := 7, maxSpeed := 10, damping := 0.90,
    cameraForward := ⟨0, 0, -1⟩, cameraRight := ⟨1, 0, 0⟩ }

/-- The raw input direction built from the four directional flags
(`update` lines 84–102): forward is −Z, backward +Z, left −X, right +X. -/
def rawDirection (a : Actions) : Vec3 :=
  let d : Vec3 := ⟨0, 0, 0⟩
  let d := if a.forward then { d with z := d.z - 1 } else d
  let d := if a.backward then { d with z := d.z + 1 } else d
  let d := if a.left then { d with x := d.x - 1 } else d
  let d := if a.right then { d with x := d.x + 1 } else d
  d

/-- The camera-relative reprojection (`update` lines 111–117):
`tempVec = cameraForward * (-dir.z) + cameraRight * dir.x`. -/
def reprojected (cfg : PlayerConfig) (dir : Vec3) : Vec3 :=
  ((⟨0, 0, 0⟩ : Vec3).addScaledVector cfg.cameraForward (-dir.z)).addScaledVector
    cfg.cameraRight dir.x

/-- The final movement direction (`update` lines 104–124): normalize the
raw direction if nonzero, reproject onto the camera basis, normalize the
result if nonzero. -/
def movementDirection (cfg : PlayerConfig) (a : Actions) : Vec3 :=
  let md := rawDirection a
  if md.lengthSq > 0 then
    let md := md.normalize
    let tv := reprojected cfg md
    if tv.lengthSq > 0 then tv.normalize else md
  else md

/-- The scaled movement impulse (`update` line 128):
`movementDirection * (moveSpeed * delta * 10)`; the damping branch later
tests this very vector for being zero, because `multiplyScalar` mutated
`this.movementDirection` in place. -/
def moveImpulseVec (cfg : PlayerConfig) (a : Actions) (delta : ℝ) : Vec3 :=
  (movementDirection cfg a).multiplyScalar (cfg.moveSpeed * delta * 10)

/-- The movement impulse as passed to `applyImpulse` (`update` line 129):
the y component is dropped. -/
def moveApplied (cfg : PlayerConfig) (a : Actions) (delta : ℝ) : Vec3 :=
  ⟨(moveImpulseVec cfg a delta).x, 0, (moveImpulseVec cfg a delta).z⟩

/-- The horizontal-speed-clamp condition (`update` line 135), on the
velocity read at the start of `update`. -/
def clampCondition (cfg : PlayerConfig) (b : Body) : Prop :=
  (Vec2.mk b.vel.x b.vel.z).lengthSq > cfg.maxSpeed * cfg.maxSpeed

instance (cfg : PlayerConfig) (b : Body) : Decidable (clampCondition cfg b) := by
  unfold clampCondition; infer_instance

/-- The velocity the clamp writes (`update` lines 136–137): the entry
horizontal velocity rescaled to `maxSpeed`, entry vertical kept. -/
def clampedVel (cfg : PlayerConfig) (b : Body) : Vec3 :=
  let hv := ((Vec2.mk b.vel.x b.vel.z).normalize).multiplyScalar cfg.maxSpeed
  ⟨hv.x, b.vel.y, hv.y⟩

/-- The velocity the idle-damping branch writes (`update` lines 157–161):
entry horizontal components scaled by `damping`, entry vertical kept. -/
def dampedVel (cfg : PlayerConfig) (b : Body) : Vec3 :=
  ⟨b.vel.x * cfg.damping, b.vel.y, b.vel.z * cfg.damping⟩

/-- The outcome of one `PlayerSystem.update` call: the body afterwards, the
action flags afterwards, and the traces of `applyImpulse` and `setLinvel`
calls made on the body, in order. -/
structure PlayerUpdateResult where
  body : Body
  actions : Actions
  impulses : List Vec3
  linvelWrites : List Vec3

/-- The body after the movement impulse (`update` line 129). -/
def bodyAfterMove (cfg : PlayerConfig) (a : Actions) (b : Body) (delta : ℝ) : Body :=
  b.applyImpulse (moveApplied cfg a delta)

/-- The body after the horizontal-speed clamp (`update` lines 131–138). -/
def bodyAfterClamp (cfg : PlayerConfig) (a : Actions) (b : Body) (delta : ℝ) : Body :=
  if clampCondition cfg b then (bodyAfterMove cfg a b delta).setLinvel (clampedVel cfg b)
  else bodyAfterMove cfg a b delta

/-- The jump branch fires (`update` lines 141–143): the Jump flag is set
and the body is grounded at that point. -/
def jumpFires (cfg : PlayerConfig) (a : Actions) (b : Body) (delta : ℝ) : Prop :=
  a.jump = true ∧ isGrounded (bodyAfterClamp cfg a b delta)

instance (cfg : PlayerConfig) (a : Actions) (b : Body) (delta : ℝ) :
    Decidable (jumpFires cfg a b delta) := by
  unfold jumpFires; infer_instance

/-- The body after the jump branch (`update` lines 140–150): vertical
velocity reset through `setLinvel` (with the entry snapshot's horizontal
components), then the vertical impulse `jumpForce`. -/
def bodyAfterJump (cfg : PlayerConfig) (a : Actions) (b : Body) (delta : ℝ) : Body :=
  if jumpFires cfg a b delta then
    ((bodyAfterClamp cfg a b delta).setLinvel ⟨b.vel.x, 0, b.vel.z⟩).applyImpulse
      ⟨0, cfg.jumpForce, 0⟩
  else bodyAfterClamp cfg a b delta

/-- The idle-damping branch fires (`update` lines 152–156): the (scaled)
movement direction is the zero vector and the body is grounded at that
point. -/
def dampFires (cfg : PlayerConfig) (a : Actions) (b : Body) (delta : ℝ) : Prop :=
  (moveImpulseVec cfg a delta).lengthSq = 0 ∧ isGrounded (bodyAfterJump cfg a b delta)

instance (cfg : PlayerConfig) (a : Actions) (b : Body) (delta : ℝ) :
    Decidable (dampFires cfg a b delta) := by
  unfold dampFires; infer_instance

/-- The body at the end of `update` (lines 152–163). -/
def bodyAfterDamp (cfg : PlayerConfig) (a : Actions) (b : Body) (delta : ℝ) : Body :=
  if dampFires cfg a b delta then (bodyAfterJump cfg a b delta).setLinvel (dampedVel cfg b)
  else bodyAfterJump cfg a b delta

/-- `PlayerSystem.update` (lines 77–164): movement impulse, horizontal
speed clamp, jump, idle damping — all velocity writes computed from the
`currentVelocity` snapshot read at entry.  The Jump flag is cleared
whenever it was set, whether or not the jump impulse fired. -/
def PlayerSystem.update (cfg : PlayerConfig) (a : Actions) (b : Body) (delta : ℝ) :
    PlayerUpdateResult :=
  { body := bodyAfterDamp cfg a b delta
    actions := if a.jump then { a with jump := false } else a
    impulses := [moveApplied cfg a delta] ++
      (if jumpFires cfg a b delta then [⟨0, cfg.jumpForce, 0⟩] else [])
    linvelWrites := (if clampCondition cfg b then [clampedVel cfg b] else []) ++
      (if jumpFires cfg a b delta then [⟨b.vel.x, 0, b.vel.z⟩] else []) ++
      (if dampFires cfg a b delta then [dampedVel cfg b] else []) }

/-! ## Camera rig (`src/systems/CameraSystem.ts`) -/

/-- `CameraMode` (`src/state/CameraState.ts`). -/
inductive CameraMode where
  | firstPerson
  | thirdPerson
  | orbital
deriving DecidableEq

/-- The camera settings record consumed by `CameraSystem.update`. -/
structure CameraSettings where
  sensitivity : ℝ
  fov : ℝ
  distance : ℝ
  height : ℝ
  offsetX : ℝ
  fpHeight : ℝ
  rotationLerpFactor : ℝ
  positionLerpFactor : ℝ

/-- The `CameraSystem` fields the per-frame update reads and writes:
pitch (`currentRotationX`), yaw (`currentRotationY`), target orientation
and target position.  (The smoothed, rendered camera pose and projection
that `applySmoothing` slerps/lerps toward these targets lives on the
external THREE camera object and is not part of the claims.) -/
structure CameraState where
  currentRotationX : ℝ
  currentRotationY : ℝ
  targetQuaternion : Quat
  targetPosition : Vec3

/-- `CameraSystem.updateRotation` (lines 127–154): early-out on a zero
delta; clamp the per-axis magnitude to 20; integrate yaw and pitch; clamp
pitch to `[-π/2 + 0.1, π/2 - 0.1]`; rebuild the target quaternion as
`yawQuaternion * pitchQuaternion` about world-up and world-X. -/
def CameraSystem.updateRotation (c : CameraState) (dx dy sensitivity : ℝ) : CameraState :=
  if dx = 0 ∧ dy = 0 then c
  else
    let sensitivityFactor := sensitivity * 0.01
    let smoothX := Real.sign dx * min |dx| 20
    let smoothY := Real.sign dy * min |dy| 20
    let rotY := c.currentRotationY - smoothX * sensitivityFactor
    let rotX := c.currentRotationX - smoothY * sensitivityFactor
    let rotX := max (-(Real.pi / 2) + 0.1) (min (Real.pi / 2 - 0.1) rotX)
    let yawQuaternion := Quat.setFromAxisAngle ⟨0, 1, 0⟩ rotY
    let pitchQuaternion := Quat.setFromAxisAngle ⟨1, 0, 0⟩ rotX
    { c with currentRotationX := rotX
             currentRotationY := rotY
             targetQuaternion := yawQuaternion.mul pitchQuaternion }

/-- The third-person camera offset (`updateThirdPersonCamera`,
lines 189–214): negated forward of the target orientation scaled by
`distance`, plus `height` on y, plus an optional lateral offset along the
target orientation's right vector. -/
def thirdPersonOffset (settings : CameraSettings) (q : Quat) : Vec3 :=
  let forward := (Vec3.mk 0 0 (-1)).applyQuaternion q
  let dir := forward.multiplyScalar (-1)
  let offset := dir.multiplyScalar settings.distance
  let offset := { offset with y := offset.y + settings.height }
  if settings.offsetX ≠ 0 then
    offset.addScaledVector ((Vec3.mk 1 0 0).applyQuaternion q) settings.offsetX
  else offset

/-- The target camera position for the current mode (`update` lines
108–114 with `updateFirstPersonCamera` / `updateThirdPersonCamera`):
first-person puts the camera `fpHeight` above the player; the other two
modes share the third-person positioning. -/
def computeTargetPosition (mode : CameraMode) (settings : CameraSettings)
    (playerPosition : Vec3) (q : Quat) : Vec3 :=
  if mode = CameraMode.firstPerson then
    ⟨playerPosition.x, playerPosition.y + settings.fpHeight, playerPosition.z⟩
  else
    playerPosition.add (thirdPersonOffset settings q)

/-- `CameraSystem.update` (lines 84–121), on the target-state fields:
rotate from the mouse delta, compute the mode's target position from the
player's physics translation, and report the player-facing yaw write that
`updatePlayerOrientation` pushes to the mesh and physics body in
first/third person (`none` in orbital mode).  The trailing `applySmoothing`
and FOV write only touch the rendered THREE camera; `playerMesh.visible`
is reported as the second component. -/
def CameraSystem.update (mode : CameraMode) (settings : CameraSettings)
    (playerPosition : Vec3) (dx dy : ℝ) (c : CameraState) :
    CameraState × Option ℝ × Bool :=
  let c1 := CameraSystem.updateRotation c dx dy settings.sensitivity
  let yawWrite : Option ℝ :=
    if mode = CameraMode.firstPerson ∨ mode = CameraMode.thirdPerson then
      some c1.currentRotationY
    else none
  let c2 := { c1 with
    targetPosition := computeTargetPosition mode settings playerPosition c1.targetQuaternion }
  (c2, yawWrite, decide (mode ≠ CameraMode.firstPerson))

/-- Iterated `updateRotation` over a sequence of mouse deltas. -/
def CameraSystem.iterateRotation (sensitivity : ℝ) :
    CameraState → List (ℝ × ℝ) → CameraState
  | c, [] => c
  | c, d :: ds =>
      CameraSystem.iterateRotation sensitivity
        (CameraSystem.updateRotation c d.1 d.2 sensitivity) ds

/-! ## Physics synchronization rotation-write helpers
(`src/systems/PlayerSystem.ts` lines 386–421, the `PhysicsSystem`
appended there) -/

/-- The slice of a Rapier rigid body the rotation-write helpers touch. -/
structure RigidBodyState where
  isFixed : Bool
  rotation : Quat

/-- One registered (visual, body) pair; meshes are compared by reference
(`e.mesh === mesh`), modelled by a numeric identity. -/
structure PhysicsEntity where
  mesh : ℕ
  body : RigidBodyState

/-- The `PhysicsSystem` state the rotation-write helpers use. -/
structure PhysicsSystemState where
  entities : List PhysicsEntity

/-- Overwrite the rotation of the first entity whose mesh matches (the
mutation `entity.body.setRotation(q, true)` performs on the entity that
`entities.find` returned). -/
def setRotationOfFirst (mesh : ℕ) (q : Quat) : List PhysicsEntity → List PhysicsEntity
  | [] => []
  | e :: rest =>
      if e.mesh = mesh then { e with body := { e.body with rotation := q } } :: rest
      else e :: setRotationOfFirst mesh q rest

/-- `PhysicsSystem.updateBodyRotation` (lines 386–398): find the pair by
visual reference; return `false` untouched if absent or the body is fixed;
otherwise set the full quaternion and return `true`. -/
def PhysicsSystem.updateBodyRotation (ps : PhysicsSystemState) (mesh : ℕ) (q : Quat) :
    PhysicsSystemState × Bool :=
  match ps.entities.find? (fun e => e.mesh = mesh) with
  | none => (ps, false)
  | some e =>
      if e.body.isFixed then (ps, false)
      else ({ entities := setRotationOfFirst mesh q ps.entities }, true)

/-- The yaw-only quaternion `updateBodyYRotation` builds (line 415):
`(0, sin(yRotation/2), 0, cos(yRotation/2))`. -/
def yawQuat (yRotation : ℝ) : Quat :=
  ⟨0, Real.sin (yRotation / 2), 0, Real.cos (yRotation / 2)⟩

/-- `PhysicsSystem.updateBodyYRotation` (lines 406–421): like
`updateBodyRotation` but writes the half-angle yaw-only quaternion. -/
def PhysicsSystem.updateBodyYRotation (ps : PhysicsSystemState) (mesh : ℕ) (yRotation : ℝ) :
    PhysicsSystemState × Bool :=
  match ps.entities.find? (fun e => e.mesh = mesh) with
  | none => (ps, false)
  | some e =>
      if e.body.isFixed then (ps, false)
      else ({ entities := setRotationOfFirst mesh (yawQuat yRotation) ps.entities }, true)

/-! ## Helper lemmas -/

/-- Writing an action flag with the value it already has is a no-op. -/
theorem Actions.set_of_get (a : Actions) (act : InputAction) (v : Bool) (h : a.get act = v) :
    a.set act v = a := by
  cases act <;> (cases a; simp_all [Actions.get, Actions.set])

/-- `isGrounded` reads only the vertical position and vertical velocity. -/
theorem isGrounded_eq_of_projections (b b' : Body) (hp : b.pos.y = b'.pos.y)
    (hv : b.vel.y = b'.vel.y) : isGrounded b = isGrounded b' := by
  unfold isGrounded; rw [hp, hv]

/-- Neither the movement impulse nor the clamp moves the body. -/
theorem bodyAfterClamp_pos (cfg : PlayerConfig) (a : Actions) (b : Body) (delta : ℝ) :
    (bodyAfterClamp cfg a b delta).pos = b.pos := by
  unfold bodyAfterClamp bodyAfterMove Body.setLinvel Body.applyImpulse
  split <;> rfl

/-- Neither the movement impulse (vertical component zero) nor the clamp
(which writes back the entry vertical velocity) changes vertical velocity. -/
theorem bodyAfterClamp_velY (cfg : PlayerConfig) (a : Actions) (b : Body) (delta : ℝ) :
    (bodyAfterClamp cfg a b delta).vel.y = b.vel.y := by
  unfold bodyAfterClamp bodyAfterMove Body.setLinvel Body.applyImpulse clampedVel moveApplied
  split <;> simp

/-- The grounded test made by the jump branch agrees with the grounded
test on the entry state. -/
theorem isGrounded_bodyAfterClamp (cfg : PlayerConfig) (a : Actions) (b : Body) (delta : ℝ) :
    isGrounded (bodyAfterClamp cfg a b delta) = isGrounded b :=
  isGrounded_eq_of_projections _ _ (by rw [bodyAfterClamp_pos]) (bodyAfterClamp_velY cfg a b delta)

/-- The jump branch fires exactly when the Jump flag is set and the entry
state is grounded. -/
theorem jumpFires_iff (cfg : PlayerConfig) (a : Actions) (b : Body) (delta : ℝ) :
    jumpFires cfg a b delta ↔ (a.jump = true ∧ isGrounded b) := by
  unfold jumpFires; rw [isGrounded_bodyAfterClamp]

/-- Without a jump, the jump stage leaves the body alone. -/
theorem bodyAfterJump_of_not (cfg : PlayerConfig) (a : Actions) (b : Body) (delta : ℝ)
    (h : ¬ jumpFires cfg a b delta) :
    bodyAfterJump cfg a b delta = bodyAfterClamp cfg a b delta := by
  unfold bodyAfterJump; exact if_neg h

/-! ## Claim C10 -/

/-- Claim C10: `isGrounded` holds exactly when
`max 0 (pos.y - PLAYER_HEIGHT / 2) < 0.15` and `|vel.y| < 0.2`
(with `PLAYER_HEIGHT / 2 = 0.9`); it depends on nothing but the vertical
position and the vertical velocity, so no contact or ray-cast information
is consulted. -/
theorem isGrounded_characterization (b : Body) :
    (isGrounded b ↔ (max 0 (b.pos.y - PLAYER_HEIGHT / 2) < 0.15 ∧ |b.vel.y| < 0.2)) ∧
    (∀ b' : Body, b.pos.y = b'.pos.y → b.vel.y = b'.vel.y →
      (isGrounded b ↔ isGrounded b')) ∧
    PLAYER_HEIGHT / 2 = 0.9 := by
  refine ⟨Iff.rfl, ?_, by norm_num [PLAYER_HEIGHT]⟩
  intro b' hp hv
  rw [isGrounded_eq_of_projections b b' hp hv]

/-! ## Claim C6 -/

/-- Claim C6: a locked-to-unlocked pointer transition forces the four
directional flags to false and keeps every other part of the input state
(Jump, Action1, Run, the mouse delta) except the lock flag itself. -/
theorem pointerUnlock_clears_directional (s : InputStoreState) (h : s.isPointerLocked = true) :
    ((setPointerLocked false s).actions.forward = false) ∧
    ((setPointerLocked false s).actions.backward = false) ∧
    ((setPointerLocked false s).actions.left = false) ∧
    ((setPointerLocked false s).actions.right = false) ∧
    ((setPointerLocked false s).actions.jump = s.actions.jump) ∧
    ((setPointerLocked false s).actions.run = s.actions.run) ∧
    ((setPointerLocked false s).actions.action1 = s.actions.action1) ∧
    ((setPointerLocked false s).mouseDeltaX = s.mouseDeltaX) ∧
    ((setPointerLocked false s).mouseDeltaY = s.mouseDeltaY) ∧
    ((setPointerLocked false s).isPointerLocked = false) := by
  simp [setPointerLocked, h]

/-- A concrete input store: pointer locked, several flags held, a pending
mouse delta. -/
def sampleStore : InputStoreState :=
  { actions := ⟨true, false, true, false, true, true, true⟩
    mouseDeltaX := 3
    mouseDeltaY := -2
    isPointerLocked := true }

/-- Witness for C6 at a concrete store. -/
theorem pointerUnlock_clears_directional_witness :
    ((setPointerLocked false sampleStore).actions.forward = false) ∧
    ((setPointerLocked false sampleStore).actions.backward = false) ∧
    ((setPointerLocked false sampleStore).actions.left = false) ∧
    ((setPointerLocked false sampleStore).actions.right = false) ∧
    ((setPointerLocked false sampleStore).actions.jump = sampleStore.actions.jump) ∧
    ((setPointerLocked false sampleStore).actions.run = sampleStore.actions.run) ∧
    ((setPointerLocked false sampleStore).actions.action1 = sampleStore.actions.action1) ∧
    ((setPointerLocked false sampleStore).mouseDeltaX = sampleStore.mouseDeltaX) ∧
    ((setPointerLocked false sampleStore).mouseDeltaY = sampleStore.mouseDeltaY) ∧
    ((setPointerLocked false sampleStore).isPointerLocked = false) :=
  pointerUnlock_clears_directional sampleStore rfl

/-! ## Claim C9 -/

/-- Claim C9: an auto-repeat key-down changes nothing; an unmapped code
changes nothing on key-down or key-up; a mapped event whose flag already
holds the event's value changes nothing — only genuine edges of mapped
codes modify the action flags. -/
theorem keyEvents_edges_only (s : InputStoreState) (code : String) :
    (InputSystem.onKeyDown true code s = s) ∧
    (keyActionMap code = none →
      InputSystem.onKeyDown false code s = s ∧ InputSystem.onKeyUp code s = s) ∧
    (∀ act, keyActionMap code = some act → s.actions.get act = true →
      InputSystem.onKeyDown false code s = s) ∧
    (∀ act, keyActionMap code = some act → s.actions.get act = false →
      InputSystem.onKeyUp code s = s) := by
  refine ⟨rfl, ?_, ?_, ?_⟩
  · intro h
    constructor <;> simp [InputSystem.onKeyDown, InputSystem.onKeyUp, h]
  · intro act h hv
    simp only [InputSystem.onKeyDown, if_neg Bool.false_ne_true, h, setAction,
      Actions.set_of_get _ _ _ hv]
  · intro act h hv
    simp only [InputSystem.onKeyUp, h, setAction, Actions.set_of_get _ _ _ hv]

/-! ## Claim C7 -/

/-- Rewriting the rotation of the first matching entity preserves the
result of the lookup, with the rotation replaced. -/
theorem find?_setRotationOfFirst (mesh : ℕ) (q : Quat) (es : List PhysicsEntity)
    (e : PhysicsEntity) (h : es.find? (fun x => x.mesh = mesh) = some e) :
    (setRotationOfFirst mesh q es).find? (fun x => x.mesh = mesh) =
      some { e with body := { e.body with rotation := q } } := by
  induction es with
  | nil => simp at h
  | cons a rest ih =>
      by_cases ha : a.mesh = mesh
      · rw [List.find?_cons_of_pos _ (by simpa using ha)] at h
        injection h with h
        subst h
        simp only [setRotationOfFirst, if_pos ha]
        exact List.find?_cons_of_pos _ (by simpa using ha)
      · rw [List.find?_cons_of_neg _ (by simpa using ha)] at h
        simp only [setRotationOfFirst, if_neg ha]
        rw [List.find?_cons_of_neg _ (by simpa using ha)]
        exact ih h

/-- Claim C7: the rotation-write helpers return `false` and change nothing
when no registered pair matches the visual or the matched body is fixed;
otherwise they return `true` and set the matched body's rotation — the
full quaternion for `updateBodyRotation`, the half-angle yaw-only
quaternion `(0, sin(angle/2), 0, cos(angle/2))` for `updateBodyYRotation`. -/
theorem rotationWriteHelpers (ps : PhysicsSystemState) (mesh : ℕ) (q : Quat) (ang : ℝ) :
    (ps.entities.find? (fun x => x.mesh = mesh) = none →
      PhysicsSystem.updateBodyRotation ps mesh q = (ps, false) ∧
      PhysicsSystem.updateBodyYRotation ps mesh ang = (ps, false)) ∧
    (∀ e, ps.entities.find? (fun x => x.mesh = mesh) = some e →
      (e.body.isFixed = true →
        PhysicsSystem.updateBodyRotation ps mesh q = (ps, false) ∧
        PhysicsSystem.updateBodyYRotation ps mesh ang = (ps, false)) ∧
      (e.body.isFixed = false →
        (PhysicsSystem.updateBodyRotation ps mesh q).2 = true ∧
        ((PhysicsSystem.updateBodyRotation ps mesh q).1.entities.find?
            (fun x => x.mesh = mesh)) =
          some { e with body := { e.body with rotation := q } } ∧
        (PhysicsSystem.updateBodyYRotation ps mesh ang).2 = true ∧
        ((PhysicsSystem.updateBodyYRotation ps mesh ang).1.entities.find?
            (fun x => x.mesh = mesh)) =
          some { e with body := { e.body with rotation :=
            ⟨0, Real.sin (ang / 2), 0, Real.cos (ang / 2)⟩ } })) := by
  constructor
  · intro h
    constructor <;>
      simp [PhysicsSystem.updateBodyRotation, PhysicsSystem.updateBodyYRotation, h]
  · intro e he
    constructor
    · intro hf
      constructor <;>
        simp [PhysicsSystem.updateBodyRotation, PhysicsSystem.updateBodyYRotation, he, hf]
    · intro hf
      refine ⟨?_, ?_, ?_, ?_⟩ <;>
        simp [PhysicsSystem.updateBodyRotation, PhysicsSystem.updateBodyYRotation, he, hf,
          find?_setRotationOfFirst mesh _ ps.entities e he, yawQuat]

/-! ## Claim C3 -/

/-- The pitch clamp bounds are ordered. -/
theorem pitchLo_le_pitchHi : -(Real.pi / 2) + 0.1 ≤ Real.pi / 2 - 0.1 := by
  have h := Real.pi_gt_three
  linarith

/-- One `updateRotation` step keeps the pitch inside the clamp range. -/
theorem updateRotation_pitch_mem (c : CameraState) (dx dy s : ℝ)
    (h : -(Real.pi / 2) + 0.1 ≤ c.currentRotationX ∧
         c.currentRotationX ≤ Real.pi / 2 - 0.1) :
    -(Real.pi / 2) + 0.1 ≤ (CameraSystem.updateRotation c dx dy s).currentRotationX ∧
    (CameraSystem.updateRotation c dx dy s).currentRotationX ≤ Real.pi / 2 - 0.1 := by
  unfold CameraSystem.updateRotation
  split
  · exact h
  · exact ⟨le_max_left _ _, max_le pitchLo_le_pitchHi (min_le_left _ _)⟩

/-- Iterating `updateRotation` keeps the pitch inside the clamp range. -/
theorem iterateRotation_pitch_mem (s : ℝ) (ds : List (ℝ × ℝ)) (c : CameraState)
    (h : -(Real.pi / 2) + 0.1 ≤ c.currentRotationX ∧
         c.currentRotationX ≤ Real.pi / 2 - 0.1) :
    -(Real.pi / 2) + 0.1 ≤ (CameraSystem.iterateRotation s c ds).currentRotationX ∧
    (CameraSystem.iterateRotation s c ds).currentRotationX ≤ Real.pi / 2 - 0.1 := by
  induction ds generalizing c with
  | nil => exact h
  | cons d ds ih => exact ih _ (updateRotation_pitch_mem c d.1 d.2 s h)

/-- A mouse delta of `(20, 0)` lowers the yaw by exactly
`20 * (sensitivity * 0.01)`. -/
theorem updateRotation_yaw_step (c : CameraState) (s : ℝ) :
    (CameraSystem.updateRotation c 20 0 s).currentRotationY =
      c.currentRotationY - 20 * (s * 0.01) := by
  unfold CameraSystem.updateRotation
  rw [if_neg (by norm_num)]
  have hsign : Real.sign (20 : ℝ) = 1 := Real.sign_of_pos (by norm_num)
  show c.currentRotationY - Real.sign 20 * min |(20 : ℝ)| 20 * (s * 0.01) = _
  rw [hsign, abs_of_pos (by norm_num : (0 : ℝ) < 20), min_self]
  ring

/-- Yaw after `n` frames of mouse delta `(20, 0)`. -/
theorem iterateRotation_replicate_yaw (s : ℝ) (n : ℕ) (c : CameraState) :
    (CameraSystem.iterateRotation s c (List.replicate n (20, 0))).currentRotationY =
      c.currentRotationY - n * (20 * (s * 0.01)) := by
  induction n generalizing c with
  | zero => simp [CameraSystem.iterateRotation]
  | succ n ih =>
      rw [List.replicate_succ]
      show (CameraSystem.iterateRotation s
        (CameraSystem.updateRotation c 20 0 s) (List.replicate n (20, 0))).currentRotationY = _
      rw [ih, updateRotation_yaw_step]
      push_cast
      ring

/-- Claim C3: over any sequence of mouse deltas the pitch stays inside the
clamp range `[-π/2 + 0.1, π/2 - 0.1]` (hence strictly inside `±π/2`),
while the yaw admits no bound: for positive sensitivity it can be driven
below any value. -/
theorem pitch_clamped_yaw_unbounded (sens : ℝ) (c : CameraState) (ds : List (ℝ × ℝ))
    (h : -(Real.pi / 2) + 0.1 ≤ c.currentRotationX ∧
         c.currentRotationX ≤ Real.pi / 2 - 0.1) :
    (-(Real.pi / 2) + 0.1 ≤ (CameraSystem.iterateRotation sens c ds).currentRotationX ∧
     (CameraSystem.iterateRotation sens c ds).currentRotationX ≤ Real.pi / 2 - 0.1 ∧
     |(CameraSystem.iterateRotation sens c ds).currentRotationX| < Real.pi / 2) ∧
    (0 < sens → ∀ M : ℝ, ∃ ds2 : List (ℝ × ℝ),
      (CameraSystem.iterateRotation sens c ds2).currentRotationY < M) := by
  have hm := iterateRotation_pitch_mem sens ds c h
  refine ⟨⟨hm.1, hm.2, ?_⟩, ?_⟩
  · rw [abs_lt]
    constructor
    · linarith [hm.1]
    · linarith [hm.2]
  · intro hs M
    obtain ⟨n, hn⟩ := exists_nat_gt ((c.currentRotationY - M) / (20 * (sens * 0.01)))
    refine ⟨List.replicate n (20, 0), ?_⟩
    rw [iterateRotation_replicate_yaw]
    have hk : (0 : ℝ) < 20 * (sens * 0.01) := by positivity
    rw [div_lt_iff₀ hk] at hn
    linarith

/-- A concrete camera state: level view, identity target orientation. -/
def levelCamera : CameraState :=
  { currentRotationX := 0
    currentRotationY := 0
    targetQuaternion := ⟨0, 0, 0, 1⟩
    targetPosition := ⟨0, 0, 0⟩ }

/-- Witness for C3 at sensitivity 1 and one concrete delta. -/
theorem pitch_clamped_yaw_unbounded_witness :
    (-(Real.pi / 2) + 0.1 ≤
       (CameraSystem.iterateRotation 1 levelCamera [(5, -3)]).currentRotationX ∧
     (CameraSystem.iterateRotation 1 levelCamera [(5, -3)]).currentRotationX ≤
       Real.pi / 2 - 0.1 ∧
     |(CameraSystem.iterateRotation 1 levelCamera [(5, -3)]).currentRotationX| <
       Real.pi / 2) ∧
    (0 < (1 : ℝ) → ∀ M : ℝ, ∃ ds2 : List (ℝ × ℝ),
      (CameraSystem.iterateRotation 1 levelCamera ds2).currentRotationY < M) :=
  pitch_clamped_yaw_unbounded 1 levelCamera [(5, -3)]
    (by constructor <;> (simp [levelCamera]; linarith [Real.pi_gt_three]))

/-! ## Claim C4 -/

/-- Claim C4: after a nonzero mouse delta the target orientation is the
product `yawQuaternion * pitchQuaternion`, the yaw quaternion about the
world-up axis `(0,1,0)` at the updated yaw angle, the pitch quaternion
about the world X axis `(1,0,0)` at the updated (clamped) pitch angle. -/
theorem targetQuaternion_is_yaw_mul_pitch (c : CameraState) (dx dy sens : ℝ)
    (h : ¬(dx = 0 ∧ dy = 0)) :
    (CameraSystem.updateRotation c dx dy sens).targetQuaternion =
      Quat.mul
        (Quat.setFromAxisAngle ⟨0, 1, 0⟩
          (CameraSystem.updateRotation c dx dy sens).currentRotationY)
        (Quat.setFromAxisAngle ⟨1, 0, 0⟩
          (CameraSystem.updateRotation c dx dy sens).currentRotationX) := by
  unfold CameraSystem.updateRotation
  rw [if_neg h]

/-- Witness for C4 at a concrete nonzero delta. -/
theorem targetQuaternion_is_yaw_mul_pitch_witness :
    (CameraSystem.updateRotation levelCamera 1 0 1).targetQuaternion =
      Quat.mul
        (Quat.setFromAxisAngle ⟨0, 1, 0⟩
          (CameraSystem.updateRotation levelCamera 1 0 1).currentRotationY)
        (Quat.setFromAxisAngle ⟨1, 0, 0⟩
          (CameraSystem.updateRotation levelCamera 1 0 1).currentRotationX) :=
  targetQuaternion_is_yaw_mul_pitch levelCamera 1 0 1 (by norm_num)

/-! ## Claim C2 -/

/-- Claim C2: when the Jump flag is set, the update clears it
unconditionally, applies the vertical impulse `jumpForce` exactly when the
grounded predicate holds, and in that case first zeroes the vertical
velocity through a `setLinvel` that keeps the entry horizontal
components. -/
theorem jump_edge_triggered (cfg : PlayerConfig) (a : Actions) (b : Body) (delta : ℝ)
    (hj : a.jump = true) :
    ((PlayerSystem.update cfg a b delta).actions.jump = false) ∧
    ((PlayerSystem.update cfg a b delta).impulses =
      [moveApplied cfg a delta] ++
        (if isGrounded b then [⟨0, cfg.jumpForce, 0⟩] else [])) ∧
    (isGrounded b →
      (⟨b.vel.x, 0, b.vel.z⟩ : Vec3) ∈ (PlayerSystem.update cfg a b delta).linvelWrites) := by
  have hjf : jumpFires cfg a b delta ↔ isGrounded b := by
    rw [jumpFires_iff]; simp [hj]
  refine ⟨?_, ?_, ?_⟩
  · simp [PlayerSystem.update, hj]
  · simp only [PlayerSystem.update]
    rw [if_congr hjf rfl rfl]
  · intro hg
    have hf : jumpFires cfg a b delta := hjf.mpr hg
    simp [PlayerSystem.update, hf, List.mem_append]

/-- The action state with only the Jump flag held. -/
def jumpOnly : Actions := ⟨false, false, false, false, true, false, false⟩

/-- A body standing still with its feet on the ground plane
(`pos.y = PLAYER_HEIGHT / 2`), unit inverse mass. -/
def restingBody : Body := { pos := ⟨0, 0.9, 0⟩, vel := ⟨0, 0, 0⟩, invMass := 1 }

/-- Witness for C2 at a concrete grounded, resting body. -/
theorem jump_edge_triggered_witness :
    ((PlayerSystem.update defaultConfig jumpOnly restingBody 1).actions.jump = false) ∧
    ((PlayerSystem.update defaultConfig jumpOnly restingBody 1).impulses =
      [moveApplied defaultConfig jumpOnly 1] ++
        (if isGrounded restingBody then [⟨0, defaultConfig.jumpForce, 0⟩] else [])) ∧
    (isGrounded restingBody →
      (⟨restingBody.vel.x, 0, restingBody.vel.z⟩ : Vec3) ∈
        (PlayerSystem.update defaultConfig jumpOnly restingBody 1).linvelWrites) :=
  jump_edge_triggered defaultConfig jumpOnly restingBody 1 rfl

/-! ## Claim C1 -/

/-- Without a grounded jump, the damping condition reduces to the entry
state's grounded test. -/
theorem dampFires_iff_of_not_jump (cfg : PlayerConfig) (a : Actions) (b : Body) (delta : ℝ)
    (hnj : ¬ jumpFires cfg a b delta) :
    dampFires cfg a b delta ↔
      ((moveImpulseVec cfg a delta).lengthSq = 0 ∧ isGrounded b) := by
  unfold dampFires
  rw [bodyAfterJump_of_not cfg a b delta hnj, isGrounded_bodyAfterClamp]

/-- Claim C1 (amended): when the entry horizontal speed exceeds a
nonnegative `maxSpeed` and neither the grounded-jump branch nor the
grounded-idle-damping branch subsequently overwrites the velocity, the
update rescales the horizontal velocity to exactly `maxSpeed` and leaves
the vertical component unchanged. -/
theorem horizontal_speed_clamp (cfg : PlayerConfig) (a : Actions) (b : Body) (delta : ℝ)
    (hms : 0 ≤ cfg.maxSpeed)
    (hc : clampCondition cfg b)
    (hnj : ¬ (a.jump = true ∧ isGrounded b))
    (hnd : ¬ ((moveImpulseVec cfg a delta).lengthSq = 0 ∧ isGrounded b)) :
    ((PlayerSystem.update cfg a b delta).body.vel = clampedVel cfg b) ∧
    Real.sqrt ((PlayerSystem.update cfg a b delta).body.vel.x ^ 2 +
               (PlayerSystem.update cfg a b delta).body.vel.z ^ 2) = cfg.maxSpeed ∧
    ((PlayerSystem.update cfg a b delta).body.vel.y = b.vel.y) := by
  have hnj' : ¬ jumpFires cfg a b delta :=
    fun hf => hnj ((jumpFires_iff cfg a b delta).mp hf)
  have hnd' : ¬ dampFires cfg a b delta :=
    fun hf => hnd ((dampFires_iff_of_not_jump cfg a b delta hnj').mp hf)
  have hvel : (PlayerSystem.update cfg a b delta).body.vel = clampedVel cfg b := by
    simp only [PlayerSystem.update, bodyAfterDamp, if_neg hnd',
      bodyAfterJump_of_not cfg a b delta hnj', bodyAfterClamp, if_pos hc]
    rfl
  refine ⟨hvel, ?_, by rw [hvel]; rfl⟩
  rw [hvel]
  simp only [clampCondition, Vec2.lengthSq] at hc
  simp only [clampedVel, Vec2.normalize, Vec2.multiplyScalar, Vec2.length, Vec2.lengthSq]
  have hL : (0 : ℝ) < b.vel.x * b.vel.x + b.vel.z * b.vel.z :=
    lt_of_le_of_lt (mul_self_nonneg cfg.maxSpeed) hc
  have hs : (0 : ℝ) < Real.sqrt (b.vel.x * b.vel.x + b.vel.z * b.vel.z) :=
    Real.sqrt_pos.mpr hL
  have hsq : Real.sqrt (b.vel.x * b.vel.x + b.vel.z * b.vel.z) ^ 2 =
      b.vel.x * b.vel.x + b.vel.z * b.vel.z := Real.sq_sqrt hL.le
  have key : (b.vel.x / Real.sqrt (b.vel.x * b.vel.x + b.vel.z * b.vel.z) * cfg.maxSpeed) ^ 2 +
      (b.vel.z / Real.sqrt (b.vel.x * b.vel.x + b.vel.z * b.vel.z) * cfg.maxSpeed) ^ 2 =
      cfg.maxSpeed ^ 2 := by
    field_simp
    ring
  rw [key, Real.sqrt_sq hms]

/-- The action state with every flag released. -/
def noActions : Actions := ⟨false, false, false, false, false, false, false⟩

/-- A fast airborne body: horizontal speed 15, well above the ground. -/
def fastAirborneBody : Body := { pos := ⟨0, 5, 0⟩, vel := ⟨15, 0, 0⟩, invMass := 1 }

/-- A grounded body sliding at horizontal speed 15. -/
def speedyGroundedBody : Body := { pos := ⟨0, 0.9, 0⟩, vel := ⟨15, 0, 0⟩, invMass := 1 }

/-- `√225 = 15`. -/
theorem sqrt_225 : Real.sqrt 225 = 15 := by
  rw [show (225 : ℝ) = 15 ^ 2 by norm_num]
  exact Real.sqrt_sq (by norm_num)

/-- With the four directional flags released the raw direction is zero. -/
theorem rawDirection_none (a : Actions) (hf : a.forward = false) (hb : a.backward = false)
    (hl : a.left = false) (hr : a.right = false) : rawDirection a = ⟨0, 0, 0⟩ := by
  simp [rawDirection, hf, hb, hl, hr]

/-- With the four directional flags released the scaled movement impulse
is the zero vector. -/
theorem moveImpulseVec_none (cfg : PlayerConfig) (a : Actions) (delta : ℝ)
    (hf : a.forward = false) (hb : a.backward = false)
    (hl : a.left = false) (hr : a.right = false) :
    moveImpulseVec cfg a delta = ⟨0, 0, 0⟩ := by
  unfold moveImpulseVec movementDirection
  rw [rawDirection_none a hf hb hl hr]
  norm_num [Vec3.lengthSq, Vec3.multiplyScalar]

/-- With the four directional flags released the applied movement impulse
is the zero vector. -/
theorem moveApplied_none (cfg : PlayerConfig) (a : Actions) (delta : ℝ)
    (hf : a.forward = false) (hb : a.backward = false)
    (hl : a.left = false) (hr : a.right = false) :
    moveApplied cfg a delta = ⟨0, 0, 0⟩ := by
  unfold moveApplied
  rw [moveImpulseVec_none cfg a delta hf hb hl hr]

/-- The airborne sample body is not grounded. -/
theorem not_isGrounded_fastAirborneBody : ¬ isGrounded fastAirborneBody := by
  rintro ⟨h1, -⟩
  rw [show fastAirborneBody.pos.y - PLAYER_HEIGHT / 2 = 4.1 by
        norm_num [fastAirborneBody, PLAYER_HEIGHT],
      max_eq_right (by norm_num : (0 : ℝ) ≤ 4.1)] at h1
  norm_num [GROUND_THRESHOLD] at h1

/-- The clamp condition holds for the airborne sample body. -/
theorem clampCondition_fast : clampCondition defaultConfig fastAirborneBody := by
  norm_num [clampCondition, Vec2.lengthSq, fastAirborneBody, defaultConfig]

/-- Witness for C1 (amended) at the airborne sample body. -/
theorem horizontal_speed_clamp_witness :
    ((PlayerSystem.update defaultConfig noActions fastAirborneBody 1).body.vel =
      clampedVel defaultConfig fastAirborneBody) ∧
    Real.sqrt ((PlayerSystem.update defaultConfig noActions fastAirborneBody 1).body.vel.x ^ 2 +
        (PlayerSystem.update defaultConfig noActions fastAirborneBody 1).body.vel.z ^ 2) =
      defaultConfig.maxSpeed ∧
    ((PlayerSystem.update defaultConfig noActions fastAirborneBody 1).body.vel.y =
      fastAirborneBody.vel.y) :=
  horizontal_speed_clamp defaultConfig noActions fastAirborneBody 1
    (by norm_num [defaultConfig])
    clampCondition_fast
    (fun h => not_isGrounded_fastAirborneBody h.2)
    (fun h => not_isGrounded_fastAirborneBody h.2)

/-- The sliding grounded sample body is grounded. -/
theorem isGrounded_speedyGroundedBody : isGrounded speedyGroundedBody := by
  constructor
  · rw [show speedyGroundedBody.pos.y - PLAYER_HEIGHT / 2 = 0 by
          norm_num [speedyGroundedBody, PLAYER_HEIGHT],
        max_self]
    norm_num [GROUND_THRESHOLD]
  · norm_num [speedyGroundedBody, LOW_VELOCITY_THRESHOLD]

/-- The clamp condition holds for the sliding grounded sample body. -/
theorem clampCondition_speedy : clampCondition defaultConfig speedyGroundedBody := by
  norm_num [clampCondition, Vec2.lengthSq, speedyGroundedBody, defaultConfig]

/-- The clamp on the sliding sample body writes `(10, 0, 0)`. -/
theorem clampedVel_speedy : clampedVel defaultConfig speedyGroundedBody = ⟨10, 0, 0⟩ := by
  unfold clampedVel Vec2.normalize Vec2.multiplyScalar Vec2.length Vec2.lengthSq
  rw [show speedyGroundedBody.vel.x * speedyGroundedBody.vel.x +
        speedyGroundedBody.vel.z * speedyGroundedBody.vel.z = 225 by
        norm_num [speedyGroundedBody],
      sqrt_225]
  norm_num [speedyGroundedBody, defaultConfig]

/-- State of the sliding sample body after movement impulse and clamp. -/
theorem bodyAfterClamp_speedy :
    bodyAfterClamp defaultConfig jumpOnly speedyGroundedBody 1 =
      { pos := ⟨0, 0.9, 0⟩, vel := ⟨10, 0, 0⟩, invMass := 1 } := by
  unfold bodyAfterClamp bodyAfterMove
  rw [if_pos clampCondition_speedy,
      moveApplied_none defaultConfig jumpOnly 1 rfl rfl rfl rfl, clampedVel_speedy]
  simp [Body.applyImpulse, Body.setLinvel, speedyGroundedBody]

/-- The jump fires on the sliding grounded sample body. -/
theorem jumpFires_speedy : jumpFires defaultConfig jumpOnly speedyGroundedBody 1 :=
  (jumpFires_iff defaultConfig jumpOnly speedyGroundedBody 1).mpr
    ⟨rfl, isGrounded_speedyGroundedBody⟩

/-- After the jump branch the sliding sample body carries the stale
horizontal snapshot `(15, ·)` plus the vertical jump impulse. -/
theorem bodyAfterJump_speedy :
    bodyAfterJump defaultConfig jumpOnly speedyGroundedBody 1 =
      { pos := ⟨0, 0.9, 0⟩, vel := ⟨15, 7, 0⟩, invMass := 1 } := by
  unfold bodyAfterJump
  rw [if_pos jumpFires_speedy, bodyAfterClamp_speedy]
  norm_num [Body.setLinvel, Body.applyImpulse, speedyGroundedBody, defaultConfig]

/-- Damping does not fire on the post-jump sample body. -/
theorem not_dampFires_speedy : ¬ dampFires defaultConfig jumpOnly speedyGroundedBody 1 := by
  rintro ⟨-, hg⟩
  rw [bodyAfterJump_speedy] at hg
  exact absurd hg.2 (by norm_num [LOW_VELOCITY_THRESHOLD])

/-- The final velocity of the sliding grounded sample body. -/
theorem update_speedy_vel :
    (PlayerSystem.update defaultConfig jumpOnly speedyGroundedBody 1).body.vel =
      ⟨15, 7, 0⟩ := by
  simp only [PlayerSystem.update, bodyAfterDamp, if_neg not_dampFires_speedy,
    bodyAfterJump_speedy]

/-- Counterexample to claim C1 as stated: a grounded body sliding at
horizontal speed 15 with the Jump flag set satisfies the claim's
antecedent (entry horizontal speed exceeds `maxSpeed = 10`), yet the jump
branch writes back the stale entry snapshot, so the post-update horizontal
speed is 15, not `maxSpeed`, and the vertical velocity changed. -/
theorem horizontal_speed_clamp_counterexample :
    clampCondition defaultConfig speedyGroundedBody ∧
    (PlayerSystem.update defaultConfig jumpOnly speedyGroundedBody 1).body.vel = ⟨15, 7, 0⟩ ∧
    Real.sqrt ((PlayerSystem.update defaultConfig jumpOnly speedyGroundedBody 1).body.vel.x ^ 2 +
        (PlayerSystem.update defaultConfig jumpOnly speedyGroundedBody 1).body.vel.z ^ 2) ≠
      defaultConfig.maxSpeed ∧
    (PlayerSystem.update defaultConfig jumpOnly speedyGroundedBody 1).body.vel.y ≠
      speedyGroundedBody.vel.y := by
  refine ⟨clampCondition_speedy, update_speedy_vel, ?_, ?_⟩
  · rw [update_speedy_vel]
    rw [show (15 : ℝ) ^ 2 + (0 : ℝ) ^ 2 = 225 by norm_num, sqrt_225]
    norm_num [defaultConfig]
  · rw [update_speedy_vel]
    norm_num [speedyGroundedBody]

/-! ## Claim C5 -/

/-- A zero mouse delta leaves `updateRotation` a no-op. -/
theorem updateRotation_zero (c : CameraState) (s : ℝ) :
    CameraSystem.updateRotation c 0 0 s = c := by
  unfold CameraSystem.updateRotation
  rw [if_pos ⟨rfl, rfl⟩]

/-- Claim C5 (amended): in a frame with no directional input, no Jump
flag, and zero mouse delta, the camera's target orientation is unchanged
and the target position settles (a second update with the same player
position changes nothing), while the movement controller applies only the
zero impulse and the only velocity writes are the horizontal-speed clamp —
when the entry horizontal speed exceeds `maxSpeed` — and idle damping
while grounded. -/
theorem idle_frame_no_input (mode : CameraMode) (settings : CameraSettings) (p : Vec3)
    (c : CameraState) (cfg : PlayerConfig) (a : Actions) (b : Body) (delta : ℝ)
    (hf : a.forward = false) (hb : a.backward = false) (hl : a.left = false)
    (hr : a.right = false) (hj : a.jump = false) :
    ((CameraSystem.update mode settings p 0 0 c).1.targetQuaternion = c.targetQuaternion) ∧
    (CameraSystem.update mode settings p 0 0 (CameraSystem.update mode settings p 0 0 c).1 =
      CameraSystem.update mode settings p 0 0 c) ∧
    ((PlayerSystem.update cfg a b delta).impulses = [⟨0, 0, 0⟩]) ∧
    ((PlayerSystem.update cfg a b delta).linvelWrites =
      (if clampCondition cfg b then [clampedVel cfg b] else []) ++
      (if isGrounded b then [dampedVel cfg b] else [])) := by
  have hnj : ¬ jumpFires cfg a b delta := by
    intro h
    have h1 := ((jumpFires_iff cfg a b delta).mp h).1
    rw [hj] at h1
    exact absurd h1 (by simp)
  have hmi := moveImpulseVec_none cfg a delta hf hb hl hr
  have hdf : dampFires cfg a b delta ↔ isGrounded b := by
    rw [dampFires_iff_of_not_jump cfg a b delta hnj, hmi]
    norm_num [Vec3.lengthSq]
  refine ⟨?_, ?_, ?_, ?_⟩
  · simp only [CameraSystem.update, updateRotation_zero]
  · simp only [CameraSystem.update, updateRotation_zero]
  · simp only [PlayerSystem.update, if_neg hnj, List.append_nil,
      moveApplied_none cfg a delta hf hb hl hr]
  · simp only [PlayerSystem.update, if_neg hnj]
    rw [if_congr hdf rfl rfl]
    simp

/-- A concrete camera-settings record. -/
def sampleSettings : CameraSettings :=
  { sensitivity := 1, fov := 75, distance := 5, height := 2, offsetX := 0,
    fpHeight := 1.6, rotationLerpFactor := 0.1, positionLerpFactor := 0.1 }

/-- Witness for C5 (amended) at concrete camera and body states. -/
theorem idle_frame_no_input_witness :
    ((CameraSystem.update CameraMode.thirdPerson sampleSettings ⟨0, 0.9, 0⟩ 0 0
        levelCamera).1.targetQuaternion = levelCamera.targetQuaternion) ∧
    (CameraSystem.update CameraMode.thirdPerson sampleSettings ⟨0, 0.9, 0⟩ 0 0
        (CameraSystem.update CameraMode.thirdPerson sampleSettings ⟨0, 0.9, 0⟩ 0 0
          levelCamera).1 =
      CameraSystem.update CameraMode.thirdPerson sampleSettings ⟨0, 0.9, 0⟩ 0 0 levelCamera) ∧
    ((PlayerSystem.update defaultConfig noActions restingBody 1).impulses = [⟨0, 0, 0⟩]) ∧
    ((PlayerSystem.update defaultConfig noActions restingBody 1).linvelWrites =
      (if clampCondition defaultConfig restingBody
        then [clampedVel defaultConfig restingBody] else []) ++
      (if isGrounded restingBody then [dampedVel defaultConfig restingBody] else [])) :=
  idle_frame_no_input CameraMode.thirdPerson sampleSettings ⟨0, 0.9, 0⟩ levelCamera
    defaultConfig noActions restingBody 1 rfl rfl rfl rfl rfl

/-- The impulse trace of the jump-while-sliding scenario: the zero
movement impulse followed by the nonzero jump impulse. -/
theorem update_speedy_impulses :
    (PlayerSystem.update defaultConfig jumpOnly speedyGroundedBody 1).impulses =
      [⟨0, 0, 0⟩, ⟨0, 7, 0⟩] := by
  simp only [PlayerSystem.update, if_pos jumpFires_speedy,
    moveApplied_none defaultConfig jumpOnly 1 rfl rfl rfl rfl]
  norm_num [defaultConfig]

/-- The clamp on the airborne sample body writes `(10, 0, 0)`. -/
theorem clampedVel_fast : clampedVel defaultConfig fastAirborneBody = ⟨10, 0, 0⟩ := by
  unfold clampedVel Vec2.normalize Vec2.multiplyScalar Vec2.length Vec2.lengthSq
  rw [show fastAirborneBody.vel.x * fastAirborneBody.vel.x +
        fastAirborneBody.vel.z * fastAirborneBody.vel.z = 225 by
        norm_num [fastAirborneBody],
      sqrt_225]
  norm_num [fastAirborneBody, defaultConfig]

/-- With no input the update on the fast airborne body still performs one
`setLinvel` write: the horizontal-speed clamp. -/
theorem update_fast_writes :
    (PlayerSystem.update defaultConfig noActions fastAirborneBody 1).linvelWrites =
      [⟨10, 0, 0⟩] := by
  have hnj : ¬ jumpFires defaultConfig noActions fastAirborneBody 1 := by
    intro h
    exact absurd ((jumpFires_iff defaultConfig noActions fastAirborneBody 1).mp h).1
      (by simp [noActions])
  have hnd : ¬ dampFires defaultConfig noActions fastAirborneBody 1 := fun h =>
    not_isGrounded_fastAirborneBody
      ((dampFires_iff_of_not_jump defaultConfig noActions fastAirborneBody 1 hnj).mp h).2
  simp only [PlayerSystem.update, if_pos clampCondition_fast, if_neg hnj, if_neg hnd,
    clampedVel_fast]
  simp

/-- Counterexample to claim C5 as stated: with all four directional flags
false, the update can still apply a nonzero (jump) impulse when the Jump
flag is set, and can still write velocity through the horizontal-speed
clamp while the body is not grounded. -/
theorem idle_frame_counterexample :
    (jumpOnly.forward = false ∧ jumpOnly.backward = false ∧
     jumpOnly.left = false ∧ jumpOnly.right = false) ∧
    ((⟨0, 7, 0⟩ : Vec3) ∈
      (PlayerSystem.update defaultConfig jumpOnly speedyGroundedBody 1).impulses) ∧
    ((⟨0, 7, 0⟩ : Vec3) ≠ (⟨0, 0, 0⟩ : Vec3)) ∧
    (noActions.forward = false ∧ noActions.backward = false ∧
     noActions.left = false ∧ noActions.right = false ∧ noActions.jump = false) ∧
    ((PlayerSystem.update defaultConfig noActions fastAirborneBody 1).linvelWrites ≠ []) ∧
    ¬ isGrounded fastAirborneBody := by
  refine ⟨⟨rfl, rfl, rfl, rfl⟩, ?_, ?_, ⟨rfl, rfl, rfl, rfl, rfl⟩, ?_,
    not_isGrounded_fastAirborneBody⟩
  · rw [update_speedy_impulses]
    simp
  · norm_num [Vec3.mk.injEq]
  · rw [update_fast_writes]
    simp

/-! ## Claim C8 -/

/-- Claim C8: with exactly Forward and Right pressed and an orthonormal
horizontal camera basis, the movement direction has component `1/√2`
along each basis vector, and the applied impulse magnitude does not
exceed (here: equals) the single-flag (Forward-only) impulse magnitude. -/
theorem diagonal_normalization (cfg : PlayerConfig) (a : Actions) (delta : ℝ)
    (hf : a.forward = true) (hr : a.right = true)
    (hb : a.backward = false) (hl : a.left = false)
    (hfy : cfg.cameraForward.y = 0) (hry : cfg.cameraRight.y = 0)
    (hfu : cfg.cameraForward.lengthSq = 1) (hru : cfg.cameraRight.lengthSq = 1)
    (hperp : cfg.cameraForward.dot cfg.cameraRight = 0) :
    ((movementDirection cfg a).dot cfg.cameraForward = 1 / Real.sqrt 2) ∧
    ((movementDirection cfg a).dot cfg.cameraRight = 1 / Real.sqrt 2) ∧
    ((moveApplied cfg a delta).length =
      (moveApplied cfg { a with right := false } delta).length) := by
  have hs2 : Real.sqrt 2 * Real.sqrt 2 = 2 := Real.mul_self_sqrt (by norm_num)
  have hspos : (0 : ℝ) < Real.sqrt 2 := Real.sqrt_pos.mpr (by norm_num)
  have hsne : Real.sqrt 2 ≠ 0 := ne_of_gt hspos
  have hfu' : cfg.cameraForward.x * cfg.cameraForward.x +
      cfg.cameraForward.y * cfg.cameraForward.y +
      cfg.cameraForward.z * cfg.cameraForward.z = 1 := hfu
  have hru' : cfg.cameraRight.x * cfg.cameraRight.x +
      cfg.cameraRight.y * cfg.cameraRight.y +
      cfg.cameraRight.z * cfg.cameraRight.z = 1 := hru
  have hperp' : cfg.cameraForward.x * cfg.cameraRight.x +
      cfg.cameraForward.y * cfg.cameraRight.y +
      cfg.cameraForward.z * cfg.cameraRight.z = 0 := hperp
  have hA : cfg.cameraForward.x * cfg.cameraForward.x +
      cfg.cameraForward.z * cfg.cameraForward.z = 1 := by
    rw [hfy] at hfu'; linarith [hfu']
  have hB : cfg.cameraRight.x * cfg.cameraRight.x +
      cfg.cameraRight.z * cfg.cameraRight.z = 1 := by
    rw [hry] at hru'; linarith [hru']
  have hC : cfg.cameraForward.x * cfg.cameraRight.x +
      cfg.cameraForward.z * cfg.cameraRight.z = 0 := by
    rw [hfy] at hperp'; linarith [hperp']
  have hraw : rawDirection a = ⟨1, 0, -1⟩ := by
    simp [rawDirection, hf, hr, hb, hl]
  have hmdn : (Vec3.mk 1 0 (-1)).normalize =
      ⟨1 / Real.sqrt 2, 0, -(1 / Real.sqrt 2)⟩ := by
    unfold Vec3.normalize Vec3.length Vec3.lengthSq
    norm_num [neg_div]
  have htvx : (reprojected cfg ⟨1 / Real.sqrt 2, 0, -(1 / Real.sqrt 2)⟩).x =
      (cfg.cameraForward.x + cfg.cameraRight.x) / Real.sqrt 2 := by
    simp [reprojected, Vec3.addScaledVector]
    ring
  have htvy : (reprojected cfg ⟨1 / Real.sqrt 2, 0, -(1 / Real.sqrt 2)⟩).y =
      (cfg.cameraForward.y + cfg.cameraRight.y) / Real.sqrt 2 := by
    simp [reprojected, Vec3.addScaledVector]
    ring
  have htvz : (reprojected cfg ⟨1 / Real.sqrt 2, 0, -(1 / Real.sqrt 2)⟩).z =
      (cfg.cameraForward.z + cfg.cameraRight.z) / Real.sqrt 2 := by
    simp [reprojected, Vec3.addScaledVector]
    ring
  have hsum : (cfg.cameraForward.x + cfg.cameraRight.x) *
        (cfg.cameraForward.x + cfg.cameraRight.x) +
      (cfg.cameraForward.y + cfg.cameraRight.y) *
        (cfg.cameraForward.y + cfg.cameraRight.y) +
      (cfg.cameraForward.z + cfg.cameraRight.z) *
        (cfg.cameraForward.z + cfg.cameraRight.z) = 2 := by
    linear_combination hfu' + hru' + 2 * hperp'
  have htvlsq : (reprojected cfg ⟨1 / Real.sqrt 2, 0, -(1 / Real.sqrt 2)⟩).lengthSq = 1 := by
    rw [Vec3.lengthSq, htvx, htvy, htvz, div_mul_div_comm, div_mul_div_comm,
      div_mul_div_comm, div_add_div_same, div_add_div_same, hsum, hs2]
    norm_num
  have hmd : movementDirection cfg a =
      reprojected cfg ⟨1 / Real.sqrt 2, 0, -(1 / Real.sqrt 2)⟩ := by
    simp only [movementDirection]
    rw [hraw]
    rw [if_pos (by norm_num [Vec3.lengthSq] : (Vec3.mk 1 0 (-1)).lengthSq > 0)]
    rw [hmdn]
    rw [if_pos (by rw [htvlsq]; norm_num)]
    unfold Vec3.normalize Vec3.length
    rw [htvlsq, Real.sqrt_one]
    simp
  have hdotf : (movementDirection cfg a).dot cfg.cameraForward = 1 / Real.sqrt 2 := by
    rw [hmd, Vec3.dot, htvx, htvy, htvz]
    field_simp
    linear_combination hfu' + hperp'
  have hdotr : (movementDirection cfg a).dot cfg.cameraRight = 1 / Real.sqrt 2 := by
    rw [hmd, Vec3.dot, htvx, htvy, htvz]
    field_simp
    linear_combination hru' + hperp'
  refine ⟨hdotf, hdotr, ?_⟩
  have hraw' : rawDirection { a with right := false } = ⟨0, 0, -1⟩ := by
    simp [rawDirection, hf, hb, hl]
  have hmdn' : (Vec3.mk 0 0 (-1)).normalize = ⟨0, 0, -1⟩ := by
    unfold Vec3.normalize Vec3.length Vec3.lengthSq
    norm_num [Real.sqrt_one, neg_div]
  have htv' : reprojected cfg ⟨0, 0, -1⟩ = cfg.cameraForward := by
    simp [reprojected, Vec3.addScaledVector]
  have hmd' : movementDirection cfg { a with right := false } = cfg.cameraForward := by
    simp only [movementDirection]
    rw [hraw']
    rw [if_pos (by norm_num [Vec3.lengthSq] : (Vec3.mk 0 0 (-1)).lengthSq > 0)]
    rw [hmdn', htv']
    rw [if_pos (by rw [hfu]; norm_num)]
    unfold Vec3.normalize Vec3.length
    rw [hfu, Real.sqrt_one]
    simp
  have huu : ((cfg.cameraForward.x + cfg.cameraRight.x) / Real.sqrt 2) *
        ((cfg.cameraForward.x + cfg.cameraRight.x) / Real.sqrt 2) +
      ((cfg.cameraForward.z + cfg.cameraRight.z) / Real.sqrt 2) *
        ((cfg.cameraForward.z + cfg.cameraRight.z) / Real.sqrt 2) = 1 := by
    rw [div_mul_div_comm, div_mul_div_comm, div_add_div_same, hs2]
    rw [show (cfg.cameraForward.x + cfg.cameraRight.x) *
          (cfg.cameraForward.x + cfg.cameraRight.x) +
        (cfg.cameraForward.z + cfg.cameraRight.z) *
          (cfg.cameraForward.z + cfg.cameraRight.z) = 2 by
      linear_combination hA + hB + 2 * hC]
    norm_num
  have harg : (moveApplied cfg a delta).lengthSq =
      (moveApplied cfg { a with right := false } delta).lengthSq := by
    simp only [moveApplied, moveImpulseVec, Vec3.lengthSq, Vec3.multiplyScalar,
      hmd, hmd', htvx, htvz]
    linear_combination
      (cfg.moveSpeed * delta * 10 * (cfg.moveSpeed * delta * 10)) * huu -
      (cfg.moveSpeed * delta * 10 * (cfg.moveSpeed * delta * 10)) * hA
  unfold Vec3.length
  rw [harg]

/-- The action state with Forward and Right held. -/
def forwardRight : Actions := ⟨true, false, false, true, false, false, false⟩

/-- Witness for C8 at the default camera basis. -/
theorem diagonal_normalization_witness :
    ((movementDirection defaultConfig forwardRight).dot defaultConfig.cameraForward =
      1 / Real.sqrt 2) ∧
    ((movementDirection defaultConfig forwardRight).dot defaultConfig.cameraRight =
      1 / Real.sqrt 2) ∧
    ((moveApplied defaultConfig forwardRight 1).length =
      (moveApplied defaultConfig { forwardRight with right := false } 1).length) :=
  diagonal_normalization defaultConfig forwardRight 1 rfl rfl rfl rfl rfl rfl
    (by norm_num [defaultConfig, Vec3.lengthSq])
    (by norm_num [defaultConfig, Vec3.lengthSq])
    (by norm_num [defaultConfig, Vec3.dot])

end Game
